import Mathlib

/-!
Shallow embedding of the simulation core of the "Puncher!" side-scrolling
game (`src/main.py`, with sprite dimensions from `src/sprites.py`).

Conventions of the embedding:
* pygame integer rectangles become the `Rect` structure over `Int`;
  `colliderect` is pygame's strict-overlap test.
* Euclidean-distance guards `math.sqrt(dx**2 + dy**2) < r` are embedded as
  `dx*dx + dy*dy < r*r`, which is equivalent for integer inputs and the
  positive integer thresholds used by the code (50, 80, 40), since square
  root is strictly monotone and both sides of the boundary are exactly
  representable.
* Sources of randomness (`random.randint`, `random.choice`) and the
  transcendental cosmetic offsets (`math.sin` bobbing) are supplied by an
  explicit oracle `Env`, threaded through the functions that consume them.
* Mutation is replaced by explicit state passing; `pygame.sprite.Group`
  becomes a Lean `List` (group iteration is over a snapshot list, matching
  `for e in group` / `list(group)` in the source), and `kill()` becomes
  omission from the resulting list.
-/

/-- Screen width constant (`SCREEN_WIDTH = 1200`). -/
def SCREEN_WIDTH : Int := 1200

/-- Screen height constant (`SCREEN_HEIGHT = 800`). -/
def SCREEN_HEIGHT : Int := 800

/-- World width (`self.world_width = 3000`). -/
def WORLD_WIDTH : Int := 3000

/-- `PowerUpType` enumeration from `main.py`. -/
inductive PowerUpType where
  | fireball
  | gun
  | shield
  | sword
  | bow
  | laser_eyes
deriving DecidableEq, Repr

/-- `GameState` enumeration from `main.py`. -/
inductive GameState where
  | menu
  | playing
  | paused
  | game_over
  | level_complete
deriving DecidableEq, Repr

/-- A pygame `Rect`: integer position and size. -/
structure Rect where
  x : Int
  y : Int
  w : Int
  h : Int
deriving DecidableEq, Repr

/-- `rect.right`. -/
def Rect.right (r : Rect) : Int := r.x + r.w

/-- `rect.left`. -/
def Rect.left (r : Rect) : Int := r.x

/-- `rect.bottom`. -/
def Rect.bottom (r : Rect) : Int := r.y + r.h

/-- `rect.centerx` (pygame: `x + w // 2`; all widths in this program are
positive constants, so integer-division flavor is immaterial). -/
def Rect.centerx (r : Rect) : Int := r.x + r.w / 2

/-- `rect.centery`. -/
def Rect.centery (r : Rect) : Int := r.y + r.h / 2

/-- pygame `Rect.colliderect`: strict overlap on both axes (touching edges
do not collide). -/
def Rect.colliderect (a b : Rect) : Bool :=
  a.x < b.x + b.w && a.x + a.w > b.x && a.y < b.y + b.h && a.y + a.h > b.y

/-- Squared center-to-center distance between two rectangles; the source
compares `math.sqrt` of this against a positive radius, equivalently the
square against the squared radius. -/
def distSq (a b : Rect) : Int :=
  (a.centerx - b.centerx) * (a.centerx - b.centerx) +
    (a.centery - b.centery) * (a.centery - b.centery)

/-- Truncation toward zero of `a / b` for `b > 0`, as CPython's `int()`
cast applied to the exact quotient (used for pygame's float-to-int rect
assignment). Stated via natural-number division on the absolute value so
that it does not depend on a division convention for negative operands. -/
def truncTowardZero (a b : Int) : Int :=
  if 0 ≤ a then a / b else -((-a) / b)

/-- The `Player` entity (`class Player` in `main.py`).  Sprite footprints:
standing 60×80, sneaking 60×40 (`sprites.py`). The `weapon_ammo` dict is
embedded as a total function together with the fixed key set `ammoKey`. -/
structure Player where
  rect : Rect
  vel_x : Int
  vel_y : Int
  speed : Int
  jump_power : Int
  gravity : Int
  on_ground : Bool
  health : Int
  max_health : Int
  punch_damage : Int
  is_punching : Bool
  punch_timer : Int
  punch_duration : Int
  punch_rect : Rect
  invulnerable : Bool
  invuln_timer : Int
  invuln_duration : Int
  power_ups : List PowerUpType
  ammo : PowerUpType → Int
  facing_right : Bool
  is_sneaking : Bool

/-- Membership in the `weapon_ammo` dict: its keys are exactly the four
projectile kinds, fixed at construction and never added to or removed. -/
def ammoKey (k : PowerUpType) : Bool :=
  match k with
  | .fireball | .gun | .laser_eyes | .bow => true
  | .shield | .sword => false

/-- `Player.__init__(x, y)`. -/
def Player.init (x y : Int) : Player where
  rect := ⟨x, y, 60, 80⟩
  vel_x := 0
  vel_y := 0
  speed := 8
  jump_power := -18
  gravity := 1
  on_ground := false
  health := 100
  max_health := 100
  punch_damage := 35
  is_punching := false
  punch_timer := 0
  punch_duration := 10
  punch_rect := ⟨0, 0, 80, 60⟩
  invulnerable := false
  invuln_timer := 0
  invuln_duration := 60
  power_ups := [.sword, .fireball, .gun]
  ammo := fun k =>
    match k with
    | .fireball => 10
    | .gun => 20
    | .laser_eyes => 5
    | .bow => 12
    | .shield => 0
    | .sword => 0
  facing_right := true
  is_sneaking := false

/-- `Player.punch()`: start a punch unless one is already active. -/
def Player.punch (p : Player) : Player :=
  if p.is_punching then p
  else { p with is_punching := true, punch_timer := p.punch_duration }

/-- `Player.take_damage(damage)`: no-op while invulnerable; otherwise
subtract, become invulnerable for `invuln_duration` ticks, and clamp
health at zero (the clamp follows the subtraction, as in the source). -/
def Player.take_damage (p : Player) (damage : Int) : Player :=
  if p.invulnerable then p
  else
    let h := p.health - damage
    { p with
      health := if h < 0 then 0 else h
      invulnerable := true
      invuln_timer := p.invuln_duration }

/-- `Player.add_power_up(power_type)`: append the kind to the unlocked
list if absent, then apply the kind-specific effect. -/
def Player.add_power_up (p : Player) (k : PowerUpType) : Player :=
  let base :=
    if k ∈ p.power_ups then p else { p with power_ups := p.power_ups ++ [k] }
  match k with
  | .fireball => { base with ammo := fun t => if t = .fireball then base.ammo t + 10 else base.ammo t }
  | .gun => { base with ammo := fun t => if t = .gun then base.ammo t + 30 else base.ammo t }
  | .laser_eyes => { base with ammo := fun t => if t = .laser_eyes then base.ammo t + 8 else base.ammo t }
  | .bow => { base with ammo := fun t => if t = .bow then base.ammo t + 15 else base.ammo t }
  | .shield =>
      let m := base.max_health + 50
      { base with max_health := m, health := min (base.health + 25) m }
  | .sword => { base with punch_damage := base.punch_damage + 15 }

/-- Visual kind tag of a projectile: the source dispatches on the `color`
constructor argument (ORANGE fireball, PURPLE laser, GREEN arrow,
otherwise bullet). -/
inductive ProjKind where
  | fireball
  | laser
  | arrow
  | bullet
deriving DecidableEq, Repr

/-- The `Projectile` entity.  Surface sizes per kind from
`Projectile.__init__`: fireball 20×20, laser 25×8, arrow 15×3, bullet 8×4. -/
structure Projectile where
  rect : Rect
  speed : Int
  direction : Int
  damage : Int
  kind : ProjKind
deriving DecidableEq, Repr

/-- `Projectile.__init__(x, y, direction, damage, color)`. -/
def Projectile.init (x y direction damage : Int) (kind : ProjKind) : Projectile where
  rect :=
    match kind with
    | .fireball => ⟨x, y, 20, 20⟩
    | .laser => ⟨x, y, 25, 8⟩
    | .arrow => ⟨x, y, 15, 3⟩
    | .bullet => ⟨x, y, 8, 4⟩
  speed := 15
  direction := direction
  damage := damage
  kind := kind

/-- `Projectile.update()`: advance horizontally by `direction * speed`,
then self-remove (`kill()`, modelled as `none`) when the world-space rect
satisfies `rect.right < 0 or rect.left > SCREEN_WIDTH`. -/
def Projectile.update (pr : Projectile) : Option Projectile :=
  let r := { pr.rect with x := pr.rect.x + pr.direction * pr.speed }
  if r.right < 0 ∨ r.left > SCREEN_WIDTH then none
  else some { pr with rect := r }

/-- `Player.use_power(power_type, game)`: returns the updated player and
the list of projectiles spawned into the game (empty or a singleton). -/
def Player.use_power (p : Player) (k : PowerUpType) : Player × List Projectile :=
  if k ∉ p.power_ups then (p, [])
  else if ammoKey k && !(k = .sword ∨ k = .shield : Bool) && p.ammo k ≤ 0 then (p, [])
  else
    let direction : Int := if p.facing_right then 1 else -1
    let start_x : Int := if p.facing_right then p.rect.right else p.rect.left
    let target_y : Int := p.rect.centery
    let spend : Player :=
      { p with ammo := fun t => if t = k then p.ammo t - 1 else p.ammo t }
    match k with
    | .fireball => (spend, [Projectile.init start_x target_y direction 40 .fireball])
    | .gun => (spend, [Projectile.init start_x target_y direction 20 .bullet])
    | .laser_eyes =>
        (spend, [{ Projectile.init start_x target_y direction 50 .laser with speed := 25 }])
    | .bow => (spend, [Projectile.init start_x target_y direction 35 .arrow])
    | .sword => (p, [])
    | .shield => (p, [])

/-- Continuously held key state read by `Player.update` via
`pygame.key.get_pressed()`. -/
structure Keys where
  left : Bool
  right : Bool
  up : Bool
  down : Bool
deriving DecidableEq, Repr

/-- `Player.update()`: movement, jumping, sneaking, gravity, ground and
left-edge clamps, punch and invulnerability countdowns, punch-rect
recomputation, and the standing/sneaking footprint swap preserving the
bottom and left edges.  Cosmetic alpha flashing is presentation-only and
not part of the state. -/
def Player.update (p : Player) (keys : Keys) : Player :=
  let vf0 : Int × Bool := (0, p.facing_right)
  let vf1 := if keys.left then (-p.speed, false) else vf0
  let vf2 := if keys.right then (p.speed, true) else vf1
  let velx := vf2.1
  let facing := vf2.2
  let jv := if keys.up && p.on_ground then (p.jump_power, false) else (p.vel_y, p.on_ground)
  let sneak := keys.down
  let vely := jv.1 + p.gravity
  let x0 := p.rect.x + velx
  let y0 := p.rect.y + vely
  let ground :=
    if y0 + p.rect.h ≥ SCREEN_HEIGHT - 50 then (SCREEN_HEIGHT - 50 - p.rect.h, (0 : Int), true)
    else (y0, vely, jv.2)
  let y1 := ground.1
  let vely1 := ground.2.1
  let onG := ground.2.2
  let x1 := if x0 < 0 then 0 else x0
  let pstate :=
    if p.is_punching then
      let t := p.punch_timer - 1
      let pr :=
        if facing then { p.punch_rect with x := x1 + p.rect.w - 20, y := y1 + 10 }
        else { p.punch_rect with x := x1 - 60, y := y1 + 10 }
      (!(t ≤ 0 : Bool), t, pr)
    else (p.is_punching, p.punch_timer, p.punch_rect)
  let istate :=
    if p.invulnerable then
      let t := p.invuln_timer - 1
      (!(t ≤ 0 : Bool), t)
    else (p.invulnerable, p.invuln_timer)
  let newH : Int := if sneak then 40 else 80
  let y2 := (y1 + p.rect.h) - newH
  { p with
    rect := ⟨x1, y2, 60, newH⟩
    vel_x := velx
    vel_y := vely1
    on_ground := onG
    is_punching := pstate.1
    punch_timer := pstate.2.1
    punch_rect := pstate.2.2
    invulnerable := istate.1
    invuln_timer := istate.2
    facing_right := facing
    is_sneaking := sneak }

/-- The `Enemy` entity (`class Enemy`, sprite 50×60).  `speed` is the
float `1.5 + level * 0.3`; it is stored here exactly, scaled by ten
(`speedTenths = 15 + level * 3`). -/
structure Enemy where
  rect : Rect
  health : Int
  max_health : Int
  damage : Int
  speedTenths : Int
  points : Int
  move_timer : Int
  move_direction : Int
  hit_flash_timer : Int
deriving DecidableEq, Repr

/-- `Enemy.__init__(x, y, level)` with its level-indexed stat formulas;
the initial `move_direction` is a uniform draw from `{-1, 1}`, supplied
by the caller. -/
def Enemy.init (x y level dirDraw : Int) : Enemy where
  rect := ⟨x, y, 50, 60⟩
  health := 20 + level * 5
  max_health := 20 + level * 5
  damage := 8 + level * 3
  speedTenths := 15 + level * 3
  points := 75 + level * 25
  move_timer := 0
  move_direction := dirDraw
  hit_flash_timer := 0

/-- `Enemy.update()`: advance the patrol timer, redraw the direction once
per second, move horizontally by `move_direction * speed` (pygame
truncates the float sum toward zero when storing it into the integer
rect), clamp to the ground, and run the cosmetic hit-flash countdown. -/
def Enemy.update (e : Enemy) (dirDraw : Int) : Enemy :=
  let t := e.move_timer + 1
  let md := if t > 60 then (dirDraw, 0) else (e.move_direction, t)
  let x := truncTowardZero (10 * e.rect.x + md.1 * e.speedTenths) 10
  let y := if e.rect.y + e.rect.h ≥ SCREEN_HEIGHT - 50 then SCREEN_HEIGHT - 50 - e.rect.h else e.rect.y
  { e with
    rect := { e.rect with x := x, y := y }
    move_direction := md.1
    move_timer := md.2
    hit_flash_timer := if e.hit_flash_timer > 0 then e.hit_flash_timer - 1 else e.hit_flash_timer }

/-- `Enemy.take_damage(damage)`: unclamped subtraction (health may go
negative; the Resolver checks `<= 0` for removal) plus the cosmetic
flash reset. -/
def Enemy.take_damage (e : Enemy) (damage : Int) : Enemy :=
  { e with health := e.health - damage, hit_flash_timer := 5 }

/-- The `Treasure` entity (sprite 30×30); `points` is a one-time uniform
draw from [150, 400] supplied by the caller.  `bounceTenths` stores the
float `bounce_timer` (stepped by 0.2) scaled by ten. -/
structure Treasure where
  rect : Rect
  points : Int
  bounceTenths : Int
  original_y : Int
deriving DecidableEq, Repr

/-- `Treasure.__init__(x, y)`. -/
def Treasure.init (x y pointsDraw : Int) : Treasure where
  rect := ⟨x, y, 30, 30⟩
  points := pointsDraw
  bounceTenths := 0
  original_y := y

/-- The `PowerUp` entity (sprite 50×50).  `floatHundredths` stores the
float `float_timer` (stepped by 0.15) scaled by one hundred. -/
structure PowerUp where
  power_type : PowerUpType
  rect : Rect
  floatHundredths : Int
  original_y : Int
deriving DecidableEq, Repr

/-- `PowerUp.__init__(x, y, power_type)`. -/
def PowerUp.init (x y : Int) (k : PowerUpType) : PowerUp where
  power_type := k
  rect := ⟨x, y, 50, 50⟩
  floatHundredths := 0
  original_y := y

/-- The `LevelGoal` entity (surface 100×150); its pulsing glow is
presentation-only, tracked as the scaled timer `glowTenths`. -/
structure LevelGoal where
  rect : Rect
  glowTenths : Int
deriving DecidableEq, Repr

/-- `LevelGoal.__init__(x, y)`. -/
def LevelGoal.init (x y : Int) : LevelGoal where
  rect := ⟨x, y, 100, 150⟩
  glowTenths := 0

/-- Oracle of the environment: held keys, the `random` module's draws,
and the truncated `sin`-bobbing offsets of the cosmetic animations
(`off5 t ≈ int(5 * sin(t/10))` for the treasure bounce, `off8 t ≈
int(8 * sin(t/100 * 15 / 15))` for the power-up float, both indexed by
the scaled timer).  Spawn draws are indexed by the spawn counter. -/
structure Env where
  keys : Keys
  enemyDir : Nat → Int
  patrolDir : Nat → Int
  off5 : Int → Int
  off8 : Int → Int
  genEnemyX : Nat → Int
  genTreasureX : Nat → Int
  genTreasureY : Nat → Int
  genTreasurePts : Nat → Int
  genPowerX : Nat → Int
  genPowerY : Nat → Int
  genPowerType : Nat → PowerUpType

/-- `Treasure.update()`: advance the bounce phase and set `y` to the
original position plus the sinusoidal offset (truncated by the integer
rect), the offset supplied by the oracle. -/
def Treasure.update (t : Treasure) (env : Env) : Treasure :=
  let b := t.bounceTenths + 2
  { t with bounceTenths := b, rect := { t.rect with y := t.original_y + env.off5 b } }

/-- `PowerUp.update()`: advance the float phase and set `y` to the
original position plus the sinusoidal offset from the oracle. -/
def PowerUp.update (pu : PowerUp) (env : Env) : PowerUp :=
  let f := pu.floatHundredths + 15
  { pu with floatHundredths := f, rect := { pu.rect with y := pu.original_y + env.off8 f } }

/-- `LevelGoal.update()`: advance the glow phase (the alpha pulse itself
is presentation-only). -/
def LevelGoal.update (lg : LevelGoal) : LevelGoal :=
  { lg with glowTenths := lg.glowTenths + 2 }

/-- The top-level `Game` aggregate.  The kind-segregated sprite groups
become lists; `all_sprites` is only a draw-order union of the
same entities and is not separately tracked. -/
structure Game where
  running : Bool
  state : GameState
  level : Int
  score : Int
  player : Player
  enemies : List Enemy
  treasures : List Treasure
  power_ups : List PowerUp
  projectiles : List Projectile
  level_goal : Option LevelGoal
  camera_x : Int
  debug_mode : Bool

/-- `num_enemies = 4 + (self.level * 2)` from `generate_level_content`. -/
def num_enemies (level : Int) : Int := 4 + level * 2

/-- `num_treasures = 3 + self.level`. -/
def num_treasures (level : Int) : Int := 3 + level

/-- `num_power_ups = 1 + (self.level // 2)`; the level is ≥ 1 whenever
this runs, so Python floor division agrees with `Int` division. -/
def num_power_ups (level : Int) : Int := 1 + level / 2

/-- The batch of enemies spawned by `generate_level_content` at a given
level: `num_enemies` aliens at oracle-drawn x positions, at ground height
`SCREEN_HEIGHT - 120`. -/
def newEnemies (env : Env) (level : Int) : List Enemy :=
  (List.range (num_enemies level).toNat).map fun i =>
    Enemy.init (env.genEnemyX i) (SCREEN_HEIGHT - 120) level (env.enemyDir i)

/-- The batch of treasures spawned by `generate_level_content`. -/
def newTreasures (env : Env) (level : Int) : List Treasure :=
  (List.range (num_treasures level).toNat).map fun i =>
    Treasure.init (env.genTreasureX i) (env.genTreasureY i) (env.genTreasurePts i)

/-- The batch of power-ups spawned by `generate_level_content`. -/
def newPowerUps (env : Env) (level : Int) : List PowerUp :=
  (List.range (num_power_ups level).toNat).map fun i =>
    PowerUp.init (env.genPowerX i) (env.genPowerY i) (env.genPowerType i)

/-- `Game.generate_level_content()`: adds the freshly generated batches to
the existing collections (`Group.add`; the groups are not emptied here)
and creates the level goal at the far end of the world, replacing the
`level_goal` reference. -/
def Game.generate_level_content (g : Game) (env : Env) : Game :=
  { g with
    enemies := g.enemies ++ newEnemies env g.level
    treasures := g.treasures ++ newTreasures env g.level
    power_ups := g.power_ups ++ newPowerUps env g.level
    level_goal := some (LevelGoal.init (WORLD_WIDTH - 200) (SCREEN_HEIGHT - 200)) }

/-- `Game.init_game()`: fresh player, emptied entity groups, the old goal
killed, then `generate_level_content` at the current level. -/
def Game.init_game (g : Game) (env : Env) : Game :=
  Game.generate_level_content
    { g with
      player := Player.init 100 (SCREEN_HEIGHT - 150)
      enemies := []
      treasures := []
      power_ups := []
      projectiles := []
      level_goal := none }
    env

/-- `Game.__init__()`: menu state, level 1, score 0, camera 0, then
`init_game`. -/
def Game.new (env : Env) : Game :=
  Game.init_game
    { running := true
      state := .menu
      level := 1
      score := 0
      player := Player.init 100 (SCREEN_HEIGHT - 150)
      enemies := []
      treasures := []
      power_ups := []
      projectiles := []
      level_goal := none
      camera_x := 0
      debug_mode := false }
    env

/-- The expanded punch collision area of pass 1 of `check_collisions`. -/
def punchArea (p : Player) : Rect :=
  ⟨p.punch_rect.x - 10, p.punch_rect.y - 10, p.punch_rect.w + 20, p.punch_rect.h + 20⟩

/-- Inner fold of pass 1 (punch vs enemies): each overlapped enemy takes
punch damage; on reaching health ≤ 0 its points are scored and it is
removed.  Returns surviving enemies and the updated score. -/
def punchFold (area : Rect) (pd : Int) : List Enemy → Int → List Enemy × Int
  | [], score => ([], score)
  | e :: rest, score =>
    if area.colliderect e.rect then
      let e2 := e.take_damage pd
      if e2.health ≤ 0 then punchFold area pd rest (score + e2.points)
      else
        let r := punchFold area pd rest score
        (e2 :: r.1, r.2)
    else
      let r := punchFold area pd rest score
      (e :: r.1, r.2)

/-- Pass 1 of `check_collisions`: only runs while the player is punching. -/
def Game.punchPass (g : Game) : Game :=
  if g.player.is_punching then
    let r := punchFold (punchArea g.player) g.player.punch_damage g.enemies g.score
    { g with enemies := r.1, score := r.2 }
  else g

/-- The 50-pixel contact radius test of pass 2, squared. -/
def contactHit (p : Player) (e : Enemy) : Bool :=
  distSq p.rect e.rect < 50 * 50

/-- Pass 2 of `check_collisions` (enemies vs player contact damage): for
every live enemy in order, if the center distance is below 50 and the
player is not invulnerable at that moment, the enemy's damage is applied
(which itself makes the player invulnerable). -/
def enemyContactPass (p : Player) (es : List Enemy) : Player :=
  es.foldl
    (fun pl e =>
      if contactHit pl e && !pl.invulnerable then pl.take_damage e.damage else pl)
    p

/-- The dual pickup test of pass 3: treasure rect inflated by 25 against
the player, or the raw rectangles overlapping. -/
def treasureHit (prect : Rect) (t : Treasure) : Bool :=
  (Rect.colliderect ⟨t.rect.x - 25, t.rect.y - 25, t.rect.w + 50, t.rect.h + 50⟩ prect) ||
    prect.colliderect t.rect

/-- Pass 3 of `check_collisions`: picked-up treasures are scored and
removed. -/
def treasureFold (prect : Rect) : List Treasure → Int → List Treasure × Int
  | [], score => ([], score)
  | t :: rest, score =>
    if treasureHit prect t then treasureFold prect rest (score + t.points)
    else
      let r := treasureFold prect rest score
      (t :: r.1, r.2)

/-- The dual pickup test of pass 4: power-up rect inflated by 30 against
the player, or the raw rectangles overlapping. -/
def powerUpHit (prect : Rect) (pu : PowerUp) : Bool :=
  (Rect.colliderect ⟨pu.rect.x - 30, pu.rect.y - 30, pu.rect.w + 60, pu.rect.h + 60⟩ prect) ||
    prect.colliderect pu.rect

/-- Pass 4 of `check_collisions`: each picked-up power-up is applied to
the player via `add_power_up` and removed. -/
def powerUpFold (pl : Player) : List PowerUp → Player × List PowerUp
  | [] => (pl, [])
  | pu :: rest =>
    if powerUpHit pl.rect pu then powerUpFold (pl.add_power_up pu.power_type) rest
    else
      let r := powerUpFold pl rest
      (r.1, pu :: r.2)

/-- Pass 5 of `check_collisions` (player vs level goal): center distance
below 80 advances the level; past level 5 this is victory (GameOver),
otherwise the player position and camera reset and
`generate_level_content` runs for the new level. -/
def Game.goalPass (g : Game) (env : Env) : Game :=
  match g.level_goal with
  | none => g
  | some lg =>
    if distSq g.player.rect lg.rect < 80 * 80 then
      let lvl := g.level + 1
      if lvl > 5 then { g with level := lvl, state := .game_over }
      else
        Game.generate_level_content
          { g with
            level := lvl
            player := { g.player with
              rect := { g.player.rect with x := 100, y := SCREEN_HEIGHT - 150 } }
            camera_x := 0 }
          env
    else g

/-- The 40-pixel projectile hit radius test of pass 6, squared. -/
def projHit (pr : Projectile) (e : Enemy) : Bool :=
  distSq pr.rect e.rect < 40 * 40

/-- Inner loop of pass 6 for one projectile over the current enemy
snapshot: every enemy within the radius takes the projectile's damage
(dead ones are removed and scored), and the projectile is killed if it
hit anything; the loop does not stop at the first hit.  Returns the
surviving enemies, the updated score, and whether the projectile died. -/
def projInner (pr : Projectile) : List Enemy → Int → List Enemy × Int × Bool
  | [], score => ([], score, false)
  | e :: rest, score =>
    if projHit pr e then
      let e2 := e.take_damage pr.damage
      if e2.health ≤ 0 then
        let r := projInner pr rest (score + e2.points)
        (r.1, r.2.1, true)
      else
        let r := projInner pr rest score
        (e2 :: r.1, r.2.1, true)
    else
      let r := projInner pr rest score
      (e :: r.1, r.2.1, r.2.2)

/-- Pass 6 of `check_collisions` (projectiles vs enemies): the outer loop
iterates the snapshot of live projectiles; each inner loop reloads the
current enemy list.  Returns surviving projectiles, enemies, and score. -/
def projPass : List Projectile → List Enemy → Int → List Projectile × List Enemy × Int
  | [], es, score => ([], es, score)
  | pr :: rest, es, score =>
    let h := projInner pr es score
    let r := projPass rest h.1 h.2.1
    (if h.2.2 then r.1 else pr :: r.1, r.2.1, r.2.2)

/-- `Game.check_collisions()`: the six Resolver passes in source order. -/
def Game.check_collisions (g : Game) (env : Env) : Game :=
  let g1 := g.punchPass
  let p2 := enemyContactPass g1.player g1.enemies
  let tr := treasureFold p2.rect g1.treasures g1.score
  let pw := powerUpFold p2 g1.power_ups
  let g4 := { g1 with player := pw.1, treasures := tr.1, power_ups := pw.2, score := tr.2 }
  let g5 := g4.goalPass env
  let pj := projPass g5.projectiles g5.enemies g5.score
  { g5 with projectiles := pj.1, enemies := pj.2.1, score := pj.2.2 }

/-- The cleanup predicate of `Game.cleanup_sprites` for non-player,
non-goal sprites: off the padded world, or more than 2000 away from the
player horizontally. -/
def staleRect (playerX : Int) (r : Rect) : Bool :=
  r.x < -200 || r.x > WORLD_WIDTH + 200 || (r.x - playerX).natAbs > 2000

/-- `Game.cleanup_sprites()`: sweep stale enemies, treasures, power-ups
and projectiles; the player and the current goal are exempt. -/
def Game.cleanup_sprites (g : Game) : Game :=
  let px := g.player.rect.x
  { g with
    enemies := g.enemies.filter fun (e : Enemy) => !staleRect px e.rect
    treasures := g.treasures.filter fun (t : Treasure) => !staleRect px t.rect
    power_ups := g.power_ups.filter fun (pu : PowerUp) => !staleRect px pu.rect
    projectiles := g.projectiles.filter fun (pr : Projectile) => !staleRect px pr.rect }

/-- `Game.update()`: freeze unless Playing; otherwise update every sprite,
track the camera, resolve collisions, sweep stale sprites, and check for
defeat. -/
def Game.update (g : Game) (env : Env) : Game :=
  if g.state ≠ .playing then g
  else
    let p := g.player.update env.keys
    let g1 :=
      { g with
        player := p
        enemies := g.enemies.mapIdx fun i (e : Enemy) => e.update (env.patrolDir i)
        treasures := g.treasures.map fun (t : Treasure) => t.update env
        power_ups := g.power_ups.map fun (pu : PowerUp) => pu.update env
        projectiles := g.projectiles.filterMap Projectile.update
        level_goal := g.level_goal.map LevelGoal.update
        camera_x := max 0 (min (p.rect.x - SCREEN_WIDTH / 3) (WORLD_WIDTH - SCREEN_WIDTH)) }
    let g2 := g1.check_collisions env
    let g3 := g2.cleanup_sprites
    if g3.player.health ≤ 0 then { g3 with state := .game_over } else g3

/-- The discrete key-down events consumed by `Game.handle_events`; `num`
carries the power hotkey mapping already applied (keys 1-6). -/
inductive GEvent where
  | quit
  | escape
  | enter
  | space
  | dKey
  | num (k : PowerUpType)
  | other
deriving DecidableEq, Repr

/-- One iteration of the `Game.handle_events` event loop. -/
def Game.handle_event (g : Game) (env : Env) (e : GEvent) : Game :=
  match e with
  | .quit => { g with running := false }
  | .escape =>
    if g.state = .playing then { g with state := .paused }
    else if g.state = .paused then { g with state := .playing }
    else g
  | .enter =>
    if g.state = .menu then Game.init_game { g with state := .playing } env
    else if g.state = .game_over then { g with state := .menu, level := 1, score := 0 }
    else g
  | .space =>
    if g.state = .playing then { g with player := g.player.punch } else g
  | .dKey =>
    if g.state = .playing then { g with debug_mode := !g.debug_mode } else g
  | .num k =>
    if g.state = .playing then
      let r := g.player.use_power k
      { g with player := r.1, projectiles := g.projectiles ++ r.2 }
    else g
  | .other => g

/-- `draw_game_over` shows the victory framing exactly when the level
counter has passed the final level (`self.level > 5`). -/
def victoryFraming (g : Game) : Bool := g.level > 5

/-- A fixed, concrete environment used to instantiate oracle-dependent
statements at witnesses and counterexamples. -/
def envTrivial : Env where
  keys := ⟨false, false, false, false⟩
  enemyDir := fun _ => 1
  patrolDir := fun _ => 1
  off5 := fun _ => 0
  off8 := fun _ => 0
  genEnemyX := fun _ => 400
  genTreasureX := fun _ => 300
  genTreasureY := fun _ => 650
  genTreasurePts := fun _ => 200
  genPowerX := fun _ => 500
  genPowerY := fun _ => 640
  genPowerType := fun _ => .fireball

/-- The bounds claimed for every reachable player state: health within
`[0, max_health]` and the invulnerability countdown within
`[0, invuln_duration]`. -/
def PlayerBounds (p : Player) : Prop :=
  0 ≤ p.health ∧ p.health ≤ p.max_health ∧
    0 ≤ p.invuln_timer ∧ p.invuln_timer ≤ p.invuln_duration

/-- Strengthened induction invariant: the claimed bounds plus the facts
that the countdown duration is the constant 60 and that the flag only
holds while at least one tick of countdown remains. -/
def PlayerInvStrong (p : Player) : Prop :=
  PlayerBounds p ∧ p.invuln_duration = 60 ∧ (p.invulnerable = true → 1 ≤ p.invuln_timer)

/-- Player states reachable in the game: the constructed player, closed
under the operations that touch player state.  Damage amounts are
nonnegative, as at every call site (`enemy.damage = 8 + level * 3` with
level ≥ 1). -/
inductive PReach : Player → Prop
  | init (x y : Int) : PReach (Player.init x y)
  | damage {p : Player} (d : Int) : PReach p → 0 ≤ d → PReach (p.take_damage d)
  | pickup {p : Player} (k : PowerUpType) : PReach p → PReach (p.add_power_up k)
  | fire {p : Player} (k : PowerUpType) : PReach p → PReach (p.use_power k).1
  | swing {p : Player} : PReach p → PReach p.punch
  | tick {p : Player} (keys : Keys) : PReach p → PReach (p.update keys)

/-- The removal rule C9 attributes to `Projectile.update`: screen-space
bounds, i.e. the world position adjusted by the camera offset, against
the `[0, SCREEN_WIDTH]` viewport. -/
def claimScreenRemove (pr : Projectile) (camera_x : Int) : Bool :=
  let x := pr.rect.x + pr.direction * pr.speed
  (x + pr.rect.w - camera_x < 0) || (x - camera_x > SCREEN_WIDTH)

/-- A bullet that, after moving, sits at world x = 1305: with the camera
at 200 it is fully on screen (screen x = 1105). -/
def projC9 : Projectile := Projectile.init 1290 400 1 20 .bullet

/-- Used by C1's two-enemy counterexample: a player standing at the
origin of contact with two overlapping level-1 and level-2 aliens. -/
def playerC1 : Player := Player.init 100 650

/-- Level-1 alien centered exactly on the player (distance 0). -/
def enemyC1a : Enemy := Enemy.init 105 660 1 1

/-- Level-2 alien one pixel to the right (distance 1 < 50). -/
def enemyC1b : Enemy := Enemy.init 106 660 2 1

/-- The effect of one projectile on one enemy of the inner snapshot of
pass 6: untouched when out of radius, damaged when in radius, removed
when the damage is lethal. -/
def projDamage (pr : Projectile) (e : Enemy) : Option Enemy :=
  if projHit pr e then
    let e2 := e.take_damage pr.damage
    if e2.health ≤ 0 then none else some e2
  else some e

/-- A fireball sitting on top of two tough (level-16, health 100)
aliens, one centered on it and one a pixel away. -/
def projC2 : Projectile := Projectile.init 120 670 1 40 .fireball

/-- First alien of the C2 counterexample. -/
def enemyC2a : Enemy := Enemy.init 105 650 16 1

/-- Second alien of the C2 counterexample. -/
def enemyC2b : Enemy := Enemy.init 106 650 16 1

/-- The level-2 goal-touch scenario of the C3 counterexample: the player
stands centered on the goal while one alien from the old level waits
back at x = 500. -/
def goalC3 : LevelGoal := LevelGoal.init (WORLD_WIDTH - 200) (SCREEN_HEIGHT - 200)

/-- The stale alien of the C3 counterexample. -/
def enemyC3 : Enemy := Enemy.init 500 680 2 1

/-- The game state of the C3 counterexample. -/
def gameC3 : Game where
  running := true
  state := .playing
  level := 2
  score := 300
  player := Player.init 2820 635
  enemies := [enemyC3]
  treasures := []
  power_ups := []
  projectiles := []
  level_goal := some goalC3
  camera_x := 1800
  debug_mode := false

/-- The game states reachable from the constructed game by any
interleaving of single input events and simulation ticks, under
arbitrary environments. -/
inductive GReach : Game → Prop
  | start (env : Env) : GReach (Game.new env)
  | handle {g : Game} (env : Env) (e : GEvent) : GReach g → GReach (g.handle_event env e)
  | tick {g : Game} (env : Env) : GReach g → GReach (g.update env)

/-- C4: `Player.take_damage` is a no-op while invulnerable; otherwise it
subtracts the amount flooring health at 0, raises the invulnerable flag,
and resets the countdown to `invuln_duration`, which is fixed at 60 ticks
from construction on. -/
theorem take_damage_spec (p : Player) (d : Int) :
    (p.invulnerable = true → p.take_damage d = p) ∧
    (p.invulnerable = false →
      (p.take_damage d).health = max (p.health - d) 0 ∧
      (p.take_damage d).invulnerable = true ∧
      (p.take_damage d).invuln_timer = p.invuln_duration ∧
      (p.take_damage d).invuln_duration = p.invuln_duration ∧
      (p.take_damage d).max_health = p.max_health) ∧
    (∀ x y : Int, (Player.init x y).invuln_duration = 60) := by
  refine ⟨fun h => ?_, fun h => ?_, fun x y => rfl⟩
  · simp [Player.take_damage, h]
  · have e1 : p.take_damage d =
        { p with
          health := if p.health - d < 0 then 0 else p.health - d
          invulnerable := true
          invuln_timer := p.invuln_duration } := by
      simp [Player.take_damage, h]
    rw [e1]
    refine ⟨?_, rfl, rfl, rfl, rfl⟩
    show (if p.health - d < 0 then 0 else p.health - d) = max (p.health - d) 0
    split <;> omega

/-- Witness for C4 at concrete players: damage applies when vulnerable
and is a no-op when invulnerable. -/
theorem take_damage_spec_witness :
    ((Player.init 0 0).take_damage 30).health = 70 ∧
    ({ Player.init 0 0 with invulnerable := true }.take_damage 30 =
      { Player.init 0 0 with invulnerable := true }) := by
  constructor
  · have h := (take_damage_spec (Player.init 0 0) 30).2.1 rfl
    rw [h.1]; decide
  · exact (take_damage_spec { Player.init 0 0 with invulnerable := true } 30).1 rfl

lemma playerInvStrong_init (x y : Int) : PlayerInvStrong (Player.init x y) := by
  refine ⟨⟨?_, ?_, ?_, ?_⟩, rfl, ?_⟩ <;> simp [Player.init, PlayerBounds]

lemma playerInvStrong_take_damage {p : Player} (d : Int) (hd : 0 ≤ d)
    (h : PlayerInvStrong p) : PlayerInvStrong (p.take_damage d) := by
  obtain ⟨⟨h1, h2, h3, h4⟩, h5, h6⟩ := h
  by_cases hi : p.invulnerable
  · simpa [Player.take_damage, hi] using ⟨⟨h1, h2, h3, h4⟩, h5, h6⟩
  · simp only [Player.take_damage, hi, Bool.false_eq_true, if_false]
    refine ⟨⟨?_, ?_, ?_, ?_⟩, h5, ?_⟩ <;> simp <;> omega

lemma playerInvStrong_add_power_up {p : Player} (k : PowerUpType)
    (h : PlayerInvStrong p) : PlayerInvStrong (p.add_power_up k) := by
  obtain ⟨⟨h1, h2, h3, h4⟩, h5, h6⟩ := h
  cases k <;>
    simp only [Player.add_power_up] <;>
    split <;>
    refine ⟨⟨?_, ?_, ?_, ?_⟩, ?_, ?_⟩ <;>
    simp_all <;> omega

lemma use_power_fields (p : Player) (k : PowerUpType) :
    (p.use_power k).1.health = p.health ∧
    (p.use_power k).1.max_health = p.max_health ∧
    (p.use_power k).1.invuln_timer = p.invuln_timer ∧
    (p.use_power k).1.invuln_duration = p.invuln_duration ∧
    (p.use_power k).1.invulnerable = p.invulnerable := by
  by_cases hm : k ∈ p.power_ups <;>
    cases k <;>
      simp [Player.use_power, hm] <;>
      split_ifs <;> simp

lemma playerInvStrong_use_power {p : Player} (k : PowerUpType)
    (h : PlayerInvStrong p) : PlayerInvStrong (p.use_power k).1 := by
  obtain ⟨⟨h1, h2, h3, h4⟩, h5, h6⟩ := h
  obtain ⟨f1, f2, f3, f4, f5⟩ := use_power_fields p k
  refine ⟨⟨?_, ?_, ?_, ?_⟩, ?_, ?_⟩
  · rw [f1]; exact h1
  · rw [f1, f2]; exact h2
  · rw [f3]; exact h3
  · rw [f3, f4]; exact h4
  · rw [f4]; exact h5
  · intro hi; rw [f5] at hi; rw [f3]; exact h6 hi

lemma playerInvStrong_punch {p : Player} (h : PlayerInvStrong p) :
    PlayerInvStrong p.punch := by
  obtain ⟨⟨h1, h2, h3, h4⟩, h5, h6⟩ := h
  by_cases hp : p.is_punching <;>
    simp [Player.punch, hp] <;>
    exact ⟨⟨h1, h2, h3, h4⟩, h5, h6⟩

lemma playerInvStrong_update {p : Player} (keys : Keys)
    (h : PlayerInvStrong p) : PlayerInvStrong (p.update keys) := by
  obtain ⟨⟨h1, h2, h3, h4⟩, h5, h6⟩ := h
  by_cases hi : p.invulnerable
  · have ht := h6 hi
    refine ⟨⟨?_, ?_, ?_, ?_⟩, ?_, ?_⟩ <;>
      simp [Player.update, hi, decide_eq_true_eq] <;> omega
  · refine ⟨⟨?_, ?_, ?_, ?_⟩, ?_, ?_⟩ <;>
      simp [Player.update, hi] <;> omega

/-- C5: every reachable player state keeps health within
`[0, max_health]` and the invulnerability timer within
`[0, invuln_duration]`; each health-modifying operation (`take_damage`,
the shield branch of `add_power_up`) and the per-tick countdown preserve
the bounds. -/
theorem player_bounds_invariant (p : Player) (h : PReach p) :
    0 ≤ p.health ∧ p.health ≤ p.max_health ∧
      0 ≤ p.invuln_timer ∧ p.invuln_timer ≤ p.invuln_duration := by
  have key : PlayerInvStrong p := by
    induction h with
    | init x y => exact playerInvStrong_init x y
    | damage d _ hd ih => exact playerInvStrong_take_damage d hd ih
    | pickup k _ ih => exact playerInvStrong_add_power_up k ih
    | fire k _ ih => exact playerInvStrong_use_power k ih
    | swing _ ih => exact playerInvStrong_punch ih
    | tick keys _ ih => exact playerInvStrong_update keys ih
  exact key.1

/-- Witness for C5: the bounds hold for a freshly constructed player,
and after a damaging hit followed by a tick. -/
theorem player_bounds_invariant_witness :
    (0 ≤ (Player.init 100 650).health ∧
      (Player.init 100 650).health ≤ (Player.init 100 650).max_health ∧
      0 ≤ (Player.init 100 650).invuln_timer ∧
      (Player.init 100 650).invuln_timer ≤ (Player.init 100 650).invuln_duration) ∧
    (let q := ((Player.init 100 650).take_damage 11).update envTrivial.keys;
      0 ≤ q.health ∧ q.health ≤ q.max_health ∧
        0 ≤ q.invuln_timer ∧ q.invuln_timer ≤ q.invuln_duration) :=
  ⟨player_bounds_invariant _ (PReach.init 100 650),
    player_bounds_invariant _
      (PReach.tick envTrivial.keys (PReach.damage 11 (PReach.init 100 650) (by norm_num)))⟩

lemma add_power_up_power_ups (p : Player) (k : PowerUpType) :
    (p.add_power_up k).power_ups =
      if k ∈ p.power_ups then p.power_ups else p.power_ups ++ [k] := by
  cases k <;> simp only [Player.add_power_up] <;> split <;> simp

lemma count_add_power_up (p : Player) (k : PowerUpType)
    (h : p.power_ups.count k ≤ 1) : (p.add_power_up k).power_ups.count k = 1 := by
  rw [add_power_up_power_ups]
  by_cases hm : k ∈ p.power_ups
  · have := List.one_le_count_iff.mpr hm
    simp only [hm, if_true]
    omega
  · have := List.count_eq_zero.mpr hm
    simp [hm, this]

lemma count_add_power_up_iter (p : Player) (k : PowerUpType)
    (h : p.power_ups.count k ≤ 1) :
    ∀ n : Nat, 1 ≤ n →
      (((fun q : Player => q.add_power_up k)^[n] p).power_ups.count k) = 1 := by
  intro n
  induction n generalizing p h with
  | zero => omega
  | succ m ih =>
    intro _
    rw [Function.iterate_succ_apply]
    rcases Nat.eq_zero_or_pos m with hm | hm
    · subst hm
      simpa using count_add_power_up p k h
    · exact ih (p.add_power_up k) (by rw [count_add_power_up p k h]) hm

/-- C8: `add_power_up` is idempotent on the unlocked list — starting from
at most one entry, any positive number of calls leaves exactly one entry
for the kind — while the side effects land on every call: fixed per-kind
ammo gains, shield's `max_health + 50` with a 25-point heal capped at the
new maximum, and sword's `punch_damage + 15`. -/
theorem add_power_up_spec (p : Player) (k : PowerUpType)
    (h : p.power_ups.count k ≤ 1) :
    (∀ n : Nat, 1 ≤ n →
      (((fun q : Player => q.add_power_up k)^[n] p).power_ups.count k) = 1) ∧
    (p.add_power_up .fireball).ammo .fireball = p.ammo .fireball + 10 ∧
    (p.add_power_up .gun).ammo .gun = p.ammo .gun + 30 ∧
    (p.add_power_up .laser_eyes).ammo .laser_eyes = p.ammo .laser_eyes + 8 ∧
    (p.add_power_up .bow).ammo .bow = p.ammo .bow + 15 ∧
    (p.add_power_up .shield).max_health = p.max_health + 50 ∧
    (p.add_power_up .shield).health = min (p.health + 25) (p.max_health + 50) ∧
    (p.add_power_up .sword).punch_damage = p.punch_damage + 15 := by
  refine ⟨count_add_power_up_iter p k h, ?_, ?_, ?_, ?_, ?_, ?_, ?_⟩ <;>
    simp [Player.add_power_up] <;> split <;> simp

/-- Witness for C8: three stacked bow pickups on the fresh player leave a
single bow entry, and one pickup grants exactly 15 arrows. -/
theorem add_power_up_spec_witness :
    (Player.init 0 0).power_ups.count .bow ≤ 1 ∧
    (((fun q : Player => q.add_power_up .bow)^[3] (Player.init 0 0)).power_ups.count .bow) = 1 ∧
    ((Player.init 0 0).add_power_up .bow).ammo .bow = (Player.init 0 0).ammo .bow + 15 := by
  refine ⟨by decide, ?_, ?_⟩
  · exact (add_power_up_spec (Player.init 0 0) .bow (by decide)).1 3 (by norm_num)
  · exact (add_power_up_spec (Player.init 0 0) .bow (by decide)).2.2.2.2.1

/-- C6: `use_power` is a no-op for a locked kind and for an ammo kind out
of ammo (ammo never drops below zero); an unlocked ammo kind with ammo
spawns exactly one projectile at the player's leading edge and vertical
center, headed in the facing direction, and costs exactly one ammo;
sword and shield never spawn a projectile. -/
theorem use_power_spec (p : Player) (k : PowerUpType) :
    (k ∉ p.power_ups → p.use_power k = (p, [])) ∧
    (ammoKey k = true → p.ammo k ≤ 0 → p.use_power k = (p, [])) ∧
    (0 ≤ p.ammo k → 0 ≤ (p.use_power k).1.ammo k) ∧
    (k ∈ p.power_ups → ammoKey k = true → 0 < p.ammo k →
      (p.use_power k).1.ammo k = p.ammo k - 1 ∧
      (p.use_power k).2.length = 1 ∧
      ∀ pr ∈ (p.use_power k).2,
        pr.rect.x = (if p.facing_right then p.rect.right else p.rect.left) ∧
        pr.rect.y = p.rect.centery ∧
        pr.direction = (if p.facing_right = true then 1 else -1)) ∧
    (k = .sword ∨ k = .shield → (p.use_power k).2 = []) := by
  by_cases hm : k ∈ p.power_ups
  · refine ⟨fun hc => absurd hm hc, ?_, ?_, ?_, ?_⟩
    · intro hk ha
      cases k <;> simp_all [Player.use_power, ammoKey]
    · intro ha
      cases k <;>
        simp_all [Player.use_power, ammoKey] <;>
        first
        | omega
        | (split_ifs <;> simp_all <;> omega)
    · intro _ hk hz
      cases k <;>
        simp_all [Player.use_power, ammoKey, Projectile.init] <;>
        first
        | omega
        | (split_ifs <;> simp_all <;> omega)
    · rintro (rfl | rfl) <;> simp [Player.use_power, hm]
  · refine ⟨fun _ => by simp [Player.use_power, hm], ?_, ?_, ?_, ?_⟩
    · intro _ _; simp [Player.use_power, hm]
    · intro ha; simp [Player.use_power, hm]; exact ha
    · intro hc; exact absurd hc hm
    · intro _; simp [Player.use_power, hm]

/-- Witness for C6 on the fresh player: the gun is unlocked with 20
rounds, so a shot costs one round and spawns one projectile, while an
out-of-ammo kind and a locked kind are no-ops. -/
theorem use_power_spec_witness :
    (PowerUpType.gun ∈ (Player.init 0 0).power_ups ∧
      ammoKey .gun = true ∧ 0 < (Player.init 0 0).ammo .gun) ∧
    ((Player.init 0 0).use_power .gun).1.ammo .gun = (Player.init 0 0).ammo .gun - 1 ∧
    ((Player.init 0 0).use_power .gun).2.length = 1 ∧
    (PowerUpType.bow ∉ (Player.init 0 0).power_ups ∧
      (Player.init 0 0).use_power .bow = (Player.init 0 0, [])) := by
  have h := (use_power_spec (Player.init 0 0) .gun).2.2.2.1 (by decide) rfl (by decide)
  exact ⟨⟨by decide, rfl, by decide⟩, h.1, h.2.1,
    by decide, (use_power_spec (Player.init 0 0) .bow).1 (by decide)⟩

/-- C9 counterexample: the code removes `projC9` even though, with the
camera at 200, its screen-space position is inside the viewport — removal
is decided in world space, not in camera-adjusted screen space. -/
theorem projectile_update_counterexample :
    Projectile.update projC9 = none ∧ claimScreenRemove projC9 200 = false := by
  constructor <;> rfl

/-- C9 amended: `Projectile.update` advances the position by
`direction × speed` and removes the projectile exactly when its world
rect leaves the fixed `[0, SCREEN_WIDTH]` window (equivalently, the
claim's screen-space rule at camera offset 0); the camera offset plays no
part. -/
theorem projectile_update_spec (pr : Projectile) :
    (Projectile.update pr = none ↔
      (pr.rect.x + pr.direction * pr.speed + pr.rect.w < 0 ∨
        pr.rect.x + pr.direction * pr.speed > SCREEN_WIDTH)) ∧
    (Projectile.update pr = none ↔ claimScreenRemove pr 0 = true) ∧
    (∀ q, Projectile.update pr = some q →
      q.rect.x = pr.rect.x + pr.direction * pr.speed ∧
      q.rect.y = pr.rect.y ∧ q.rect.w = pr.rect.w ∧ q.rect.h = pr.rect.h ∧
      q.speed = pr.speed ∧ q.direction = pr.direction ∧
      q.damage = pr.damage ∧ q.kind = pr.kind) := by
  refine ⟨?_, ?_, ?_⟩
  · simp [Projectile.update, Rect.right, Rect.left]
    constructor
    · intro h; omega
    · intro h _; omega
  · simp [Projectile.update, claimScreenRemove, Rect.right, Rect.left]
    constructor
    · intro h; omega
    · intro h; omega
  · intro q hq
    simp only [Projectile.update] at hq
    split at hq
    · exact absurd hq (by simp)
    · obtain rfl := Option.some_injective _ hq
      exact ⟨rfl, rfl, rfl, rfl, rfl, rfl, rfl, rfl⟩

/-- Witness for C9's amended statement at a bullet in mid-screen. -/
theorem projectile_update_spec_witness :
    (Projectile.update (Projectile.init 100 50 1 20 .bullet) =
      some { Projectile.init 100 50 1 20 .bullet with rect := ⟨115, 50, 8, 4⟩ }) ∧
    ({ Projectile.init 100 50 1 20 .bullet with rect := ⟨115, 50, 8, 4⟩ } : Projectile).rect.x =
      (Projectile.init 100 50 1 20 .bullet).rect.x +
        (Projectile.init 100 50 1 20 .bullet).direction *
          (Projectile.init 100 50 1 20 .bullet).speed :=
  ⟨by decide,
    ((projectile_update_spec (Projectile.init 100 50 1 20 .bullet)).2.2 _ (by decide)).1⟩

lemma enemyContactPass_invulnerable (pl : Player) (es : List Enemy)
    (h : pl.invulnerable = true) : enemyContactPass pl es = pl := by
  induction es with
  | nil => rfl
  | cons e rest ih =>
    show enemyContactPass _ (e :: rest) = pl
    simp only [enemyContactPass, List.foldl_cons, h, Bool.not_true, Bool.and_false,
      Bool.false_eq_true, if_false]
    exact ih

lemma take_damage_invulnerable (p : Player) (d : Int) (h : p.invulnerable = false) :
    (p.take_damage d).invulnerable = true := by
  simp [Player.take_damage, h]

/-- C1 counterexample: both aliens are inside the 50-unit radius and the
player starts vulnerable, yet after the Enemy-vs-Player pass health has
dropped by only the first alien's 11 damage — the second alien's 14
damage is blocked because the first hit already raised invulnerability
within the same pass. -/
theorem enemy_contact_counterexample :
    contactHit playerC1 enemyC1a = true ∧
    contactHit playerC1 enemyC1b = true ∧
    playerC1.invulnerable = false ∧
    (enemyContactPass playerC1 [enemyC1a, enemyC1b]).health = 89 ∧
    playerC1.health - enemyC1a.damage - enemyC1b.damage = 75 ∧
    (enemyContactPass playerC1 [enemyC1a, enemyC1b]).health ≠
      playerC1.health - enemyC1a.damage - enemyC1b.damage := by
  refine ⟨rfl, rfl, rfl, ?_, by decide, ?_⟩ <;> decide

/-- C1 amended: in the Enemy-vs-Player contact pass, when the player is
vulnerable at the start, exactly the first in-radius enemy in iteration
order applies its damage; that hit raises invulnerability, so every
later enemy in the pass (in radius or not) applies nothing. -/
theorem enemy_contact_first_only (p : Player) (es₁ es₂ : List Enemy) (e : Enemy)
    (hp : p.invulnerable = false)
    (h₁ : ∀ e' ∈ es₁, contactHit p e' = false)
    (he : contactHit p e = true) :
    enemyContactPass p (es₁ ++ e :: es₂) = p.take_damage e.damage := by
  induction es₁ with
  | nil =>
    show enemyContactPass _ (e :: es₂) = _
    simp only [enemyContactPass, List.foldl_cons, he, hp, Bool.not_false, Bool.and_self,
      if_true]
    exact enemyContactPass_invulnerable _ es₂ (take_damage_invulnerable p e.damage hp)
  | cons a rest ih =>
    have ha : contactHit p a = false := h₁ a (List.mem_cons_self a rest)
    show enemyContactPass _ (a :: (rest ++ e :: es₂)) = _
    simp only [enemyContactPass, List.foldl_cons, ha, Bool.false_and, Bool.false_eq_true,
      if_false]
    exact ih fun e' he' => h₁ e' (List.mem_cons_of_mem a he')

/-- Witness for C1's amended statement: with a distant alien first in the
list, the pass equals a single `take_damage` by the first in-radius
alien. -/
theorem enemy_contact_first_only_witness :
    playerC1.invulnerable = false ∧
    contactHit playerC1 (Enemy.init 2000 660 1 1) = false ∧
    contactHit playerC1 enemyC1a = true ∧
    enemyContactPass playerC1 [Enemy.init 2000 660 1 1, enemyC1a, enemyC1b] =
      playerC1.take_damage enemyC1a.damage := by
  refine ⟨rfl, rfl, rfl, ?_⟩
  exact enemy_contact_first_only playerC1 [Enemy.init 2000 660 1 1] [enemyC1b] enemyC1a
    rfl (by intro e' he'; simp at he'; subst he'; rfl) rfl

/-- C2 counterexample: one projectile with two enemies inside its 40-unit
radius damages BOTH in the same tick — `kill()` removes the projectile
from the group but does not break the inner loop, so damage continues
past the first hit. -/
theorem projectile_pass_counterexample :
    projHit projC2 enemyC2a = true ∧
    projHit projC2 enemyC2b = true ∧
    enemyC2a.health = 100 ∧
    enemyC2b.health = 100 ∧
    (projPass [projC2] [enemyC2a, enemyC2b] 0).1 = [] ∧
    ((projPass [projC2] [enemyC2a, enemyC2b] 0).2.1.map Enemy.health) = [60, 60] := by
  exact ⟨rfl, rfl, rfl, rfl, rfl, rfl⟩

/-- C2 amended: in pass 6's inner loop a projectile is marked killed as
soon as any enemy is within the 40-unit radius, but it still damages
every enemy of the snapshot within that radius in the same tick (lethal
hits are removed and the rest keep the reduced health); removal does not
stop the iteration. -/
theorem projectile_hits_every_enemy_in_radius (pr : Projectile) (es : List Enemy)
    (score : Int) :
    (projInner pr es score).1 = es.filterMap (projDamage pr) ∧
    (projInner pr es score).2.2 = es.any (fun e => projHit pr e) := by
  induction es generalizing score with
  | nil => exact ⟨rfl, rfl⟩
  | cons e rest ih =>
    by_cases h : projHit pr e
    · by_cases hd : (e.take_damage pr.damage).health ≤ 0
      · simp only [projInner, projDamage, h, hd, if_true, List.filterMap_cons,
          List.any_cons, Bool.true_or]
        exact ⟨(ih _).1, trivial⟩
      · simp only [projInner, projDamage, h, hd, if_true, if_false, List.filterMap_cons,
          List.any_cons, Bool.true_or]
        exact ⟨congrArg _ (ih _).1, trivial⟩
    · simp only [projInner, projDamage, h, Bool.false_eq_true, if_false,
        List.filterMap_cons, List.any_cons, Bool.false_or]
      exact ⟨congrArg _ (ih _).1, (ih _).2⟩

/-- C3 counterexample: advancing from level 2 by touching the goal runs
`generate_level_content` without clearing the groups, so the alien that
was live before the advance is still in the live enemy collection of the
post-Resolver state (it also survives that tick's distance cleanup,
sitting 400 units from the respawned player). -/
theorem level_advance_counterexample :
    distSq gameC3.player.rect goalC3.rect < 80 * 80 ∧
    enemyC3 ∈ gameC3.enemies ∧
    (gameC3.check_collisions envTrivial).level = 3 ∧
    enemyC3 ∈ (gameC3.check_collisions envTrivial).enemies ∧
    enemyC3 ∈ (gameC3.check_collisions envTrivial).cleanup_sprites.enemies := by
  refine ⟨by decide, by decide, ?_, ?_, ?_⟩ <;> decide

/-- C3 amended: a level advance at levels 1-4 appends the regenerated
batches to the existing collections instead of replacing them — every
enemy, treasure and power-up that was live before the advance is still
live immediately afterwards — while the goal reference is recreated and
the player entity (its health and unlocked powers) and the cumulative
score persist. -/
theorem level_advance_appends (g : Game) (env : Env) (lg : LevelGoal)
    (hlg : g.level_goal = some lg)
    (hdist : distSq g.player.rect lg.rect < 80 * 80)
    (hlvl : g.level + 1 ≤ 5) :
    (g.goalPass env).enemies = g.enemies ++ newEnemies env (g.level + 1) ∧
    (g.goalPass env).treasures = g.treasures ++ newTreasures env (g.level + 1) ∧
    (g.goalPass env).power_ups = g.power_ups ++ newPowerUps env (g.level + 1) ∧
    (g.goalPass env).level_goal =
      some (LevelGoal.init (WORLD_WIDTH - 200) (SCREEN_HEIGHT - 200)) ∧
    (g.goalPass env).score = g.score ∧
    (g.goalPass env).player.health = g.player.health ∧
    (g.goalPass env).player.power_ups = g.player.power_ups ∧
    (g.goalPass env).player.ammo = g.player.ammo := by
  have hgt : ¬(g.level + 1 > 5) := by omega
  simp only [Game.goalPass, hlg, hdist, if_true, hgt, if_false,
    Game.generate_level_content]
  simp

/-- Witness for C3's amended statement at the concrete level-2 scenario. -/
theorem level_advance_appends_witness :
    gameC3.level_goal = some goalC3 ∧
    distSq gameC3.player.rect goalC3.rect < 80 * 80 ∧
    gameC3.level + 1 ≤ 5 ∧
    (gameC3.goalPass envTrivial).enemies =
      gameC3.enemies ++ newEnemies envTrivial (gameC3.level + 1) ∧
    (gameC3.goalPass envTrivial).score = gameC3.score := by
  have h := level_advance_appends gameC3 envTrivial goalC3 rfl (by decide) (by decide)
  exact ⟨rfl, by decide, by decide, h.1, h.2.2.2.2.1⟩

/-- C7: touching the goal (center distance under 80) at level 5 moves the
state machine to GameOver with the victory framing; at levels 1-4 it
increments the level, resets the player to the world start and the
camera to zero, and the regenerated batch obeys the monotonic enemy-count
formula (`4 + 2·L` new enemies, nondecreasing in the level). -/
theorem goal_advance_spec (g : Game) (env : Env) (lg : LevelGoal)
    (hlg : g.level_goal = some lg)
    (hdist : distSq g.player.rect lg.rect < 80 * 80) :
    (g.level = 5 →
      (g.goalPass env).state = .game_over ∧
      (g.goalPass env).level = 6 ∧
      victoryFraming (g.goalPass env) = true) ∧
    (1 ≤ g.level → g.level ≤ 4 →
      (g.goalPass env).level = g.level + 1 ∧
      (g.goalPass env).player.rect.x = 100 ∧
      (g.goalPass env).player.rect.y = SCREEN_HEIGHT - 150 ∧
      (g.goalPass env).camera_x = 0 ∧
      (g.goalPass env).enemies =
        g.enemies ++ newEnemies env (g.level + 1) ∧
      (newEnemies env (g.level + 1)).length = (num_enemies (g.level + 1)).toNat ∧
      num_enemies g.level ≤ num_enemies (g.level + 1)) := by
  constructor
  · intro h5
    simp only [Game.goalPass, hlg, hdist, if_true, h5]
    norm_num
    rfl
  · intro hge hle
    have hgt : ¬(g.level + 1 > 5) := by omega
    simp only [Game.goalPass, hlg, hdist, if_true, hgt, if_false,
      Game.generate_level_content]
    refine ⟨trivial, trivial, trivial, trivial, trivial, ?_, ?_⟩
    · simp [newEnemies]
    · simp only [num_enemies]; omega

/-- Witness for C7: at the concrete level-2 scenario the advance behaves
as specified, and a level-5 variant ends in GameOver with victory
framing. -/
theorem goal_advance_spec_witness :
    ((gameC3.goalPass envTrivial).level = gameC3.level + 1 ∧
      (gameC3.goalPass envTrivial).player.rect.x = 100 ∧
      (gameC3.goalPass envTrivial).camera_x = 0) ∧
    (({ gameC3 with level := 5 } : Game).goalPass envTrivial).state = .game_over ∧
    victoryFraming (({ gameC3 with level := 5 } : Game).goalPass envTrivial) = true := by
  have h2 := (goal_advance_spec gameC3 envTrivial goalC3 rfl (by decide)).2
    (by decide) (by decide)
  have h5 := (goal_advance_spec { gameC3 with level := 5 } envTrivial goalC3 rfl
    (by decide)).1 rfl
  exact ⟨⟨h2.1, h2.2.1, h2.2.2.2.1⟩, h5.1, h5.2.2⟩

lemma punchPass_state (g : Game) : g.punchPass.state = g.state := by
  simp only [Game.punchPass]
  split <;> rfl

lemma goalPass_state (g : Game) (env : Env) :
    (g.goalPass env).state = g.state ∨ (g.goalPass env).state = .game_over := by
  simp only [Game.goalPass, Game.generate_level_content]
  rcases g.level_goal with _ | lg
  · exact Or.inl rfl
  · simp only []
    split
    · split
      · exact Or.inr rfl
      · exact Or.inl rfl
    · exact Or.inl rfl

lemma check_collisions_state (g : Game) (env : Env) :
    (g.check_collisions env).state = g.state ∨
      (g.check_collisions env).state = .game_over := by
  simp only [Game.check_collisions]
  refine (goalPass_state _ env).imp (fun h => ?_) (fun h => h)
  rw [h]
  exact punchPass_state g

lemma cleanup_state (g : Game) : g.cleanup_sprites.state = g.state := rfl

lemma check_cleanup_state (g : Game) (env : Env) :
    ((g.check_collisions env).cleanup_sprites).state = g.state ∨
      ((g.check_collisions env).cleanup_sprites).state = .game_over := by
  rw [cleanup_state]
  exact check_collisions_state g env

lemma update_state (g : Game) (env : Env) :
    (g.update env).state = g.state ∨ (g.update env).state = .game_over := by
  simp only [Game.update]
  split
  · exact Or.inl rfl
  · split
    · exact Or.inr rfl
    · exact (check_cleanup_state _ env).imp (fun h => by rw [h]) (fun h => h)

lemma init_game_state (g : Game) (env : Env) :
    (g.init_game env).state = g.state := rfl

lemma handle_event_state (g : Game) (env : Env) (e : GEvent) :
    (g.handle_event env e).state = g.state ∨
      (g.handle_event env e).state = .playing ∨
      (g.handle_event env e).state = .paused ∨
      (g.handle_event env e).state = .menu := by
  cases e <;>
    simp only [Game.handle_event, Game.init_game, Game.generate_level_content] <;>
    (try split_ifs) <;>
    simp

/-- C10: although `GameState` declares LEVEL_COMPLETE, no transition of
the event/tick step relation ever assigns it: every reachable state is
Menu, Playing, Paused or GameOver. -/
theorem reachable_state_not_level_complete (g : Game) (h : GReach g) :
    g.state = .menu ∨ g.state = .playing ∨ g.state = .paused ∨
      g.state = .game_over := by
  have key : g.state ≠ .level_complete := by
    induction h with
    | start env =>
      have hm : (Game.new env).state = .menu := rfl
      rw [hm]
      decide
    | handle env e _ ih =>
      rcases handle_event_state _ env e with h1 | h1 | h1 | h1 <;> rw [h1]
      · exact ih
      all_goals decide
    | tick env _ ih =>
      rcases update_state _ env with h1 | h1 <;> rw [h1]
      · exact ih
      · decide
  cases hs : g.state <;> simp_all

/-- Witness for C10 at a freshly constructed game (state Menu). -/
theorem reachable_state_not_level_complete_witness :
    (Game.new envTrivial).state = .menu ∨
      (Game.new envTrivial).state = .playing ∨
      (Game.new envTrivial).state = .paused ∨
      (Game.new envTrivial).state = .game_over :=
  reachable_state_not_level_complete _ (GReach.start envTrivial)
